import Mathlib

/-!
Verification of the ClaudeBench event relay (`scripts/claude_event_relay.py`).

The development is a shallow embedding of the relay core:
JSON values are an inductive type, the relay's mutable object state is a
record threaded explicitly, network I/O outcomes (JSONRPC responses,
transport connect results, message deliveries) are inputs to the embedded
functions, and Python exceptions are `Except`/explicit flags.
-/

set_option linter.unusedVariables false

/-- JSON-compatible values, the payloads the relay moves around. -/
inductive JVal where
  | jnull : JVal
  | jbool : Bool → JVal
  | jnum : Int → JVal
  | jstr : String → JVal
  | jarr : List JVal → JVal
  | jobj : List (String × JVal) → JVal

/-- Dictionary lookup: `d.get(k)` on a JSON object's field list (first match). -/
def getField (fields : List (String × JVal)) (k : String) : Option JVal :=
  match fields.find? (fun kv => kv.1 == k) with
  | some kv => some kv.2
  | none => none

/-- `v.get(k)` with default `.jnull` (Python `None`), for values known to be objects. -/
def jGet (v : JVal) (k : String) : JVal :=
  match v with
  | .jobj fields => (getField fields k).getD .jnull
  | _ => .jnull

/-- Python truthiness of a JSON value (`if result.get('registered'):`). -/
def jTruthy : JVal → Bool
  | .jnull => false
  | .jbool b => b
  | .jnum n => n != 0
  | .jstr s => s != ""
  | .jarr xs => !xs.isEmpty
  | .jobj fs => !fs.isEmpty

/-- Does the character list start with the given needle. -/
def charsStartWith : List Char → List Char → Bool
  | _, [] => true
  | [], _ :: _ => false
  | c :: cs, d :: ds => c == d && charsStartWith cs ds

/-- Does the character list contain the needle as a contiguous sublist. -/
def charsContain (needle : List Char) : List Char → Bool
  | [] => charsStartWith [] needle
  | c :: rest => charsStartWith (c :: rest) needle || charsContain needle rest

/-- Python `needle in hay` for two strings (substring containment). -/
def strContains (hay needle : String) : Bool :=
  charsContain needle.data hay.data

/-- Python `marker in command` where `command` is an arbitrary JSON value:
substring test on strings, key membership on dicts, element membership on
lists; on other types Python raises `TypeError`, modelled as `.error ()`. -/
def pyInJ (marker : String) : JVal → Except Unit Bool
  | .jstr s => .ok (strContains s marker)
  | .jobj fields => .ok (fields.any (fun kv => kv.1 == marker))
  | .jarr xs => .ok (xs.any (fun v => match v with
      | .jstr t => t == marker
      | _ => false))
  | _ => .error ()

/-- Python `maybeVal == s` where `maybeVal` is `payload.get(...)` (possibly
`None`) and `s` a string: true only for an equal JSON string. -/
def pyEqSome (v : Option JVal) (s : String) : Bool :=
  match v with
  | some (.jstr t) => t == s
  | _ => false

/-- The relay's `self.metrics` counters (`started_at` kept as opaque text). -/
structure Metrics where
  events_received : Nat
  events_forwarded : Nat
  heartbeats_sent : Nat
  errors : Nat
  started_at : String
deriving Repr, DecidableEq

/-- One line printed to stdout by `forward_event`:
`{'timestamp': ..., 'data': event_data}`. -/
structure OutLine where
  timestamp : String
  data : JVal

/-- The filtering block of `forward_event` (source lines 106-128): decide
whether the event is dropped.  `.ok true` = dropped, `.ok false` = survives,
`.error ()` = the `in` test raised `TypeError`. -/
def shouldFilter (instance_id : String) (event_data : JVal) : Except Unit Bool :=
  match event_data with
  | .jobj fields =>
    -- payload = event_data.get('payload', {})
    let payload := (getField fields "payload").getD (.jobj [])
    match payload with
    | .jobj pf =>
      -- event_instance_id = payload.get('instanceId'); skip if it is our own
      if pyEqSome (getField pf "instanceId") instance_id then .ok true
      else
        -- params = payload.get('params', {})
        let params := (getField pf "params").getD (.jobj [])
        match params with
        | .jobj prf =>
          -- command = params.get('command', '')
          let command := (getField prf "command").getD (.jstr "")
          pyInJ "claude_event_relay.py" command
        | _ => .ok false
    | _ => .ok false
  | _ => .ok false

/-- `forward_event(channel, event_data)` (source lines 104-141): filter, then
print one JSON line `{'timestamp', 'data': event_data}` with `flush=True`
and bump `events_forwarded`.  The channel argument is only used for debug
logging and does not enter the output. -/
def forward_event (instance_id : String) (channel : Option String) (ts : String)
    (event_data : JVal) (m : Metrics) : Except Unit (Option OutLine × Metrics) :=
  match shouldFilter instance_id event_data with
  | .error e => .error e
  | .ok true => .ok (none, m)
  | .ok false =>
    .ok (some ⟨ts, event_data⟩, { m with events_forwarded := m.events_forwarded + 1 })

/-- The relay object's configuration and mutable state (`ClaudeEventRelay.__init__`).
Connections are tracked as booleans (`self.pubsub`/`self.redis_client` being set),
and `subscribed_channels` is the Python set as a duplicate-free list. -/
structure RelayState where
  instance_id : String
  session_id : String
  roles : List String
  event_channels : List String
  heartbeat_interval : Nat
  running : Bool
  registered : Bool
  request_counter : Nat
  pubsub : Bool
  redis_client : Bool
  subscribed_channels : List String
  metrics : Metrics
deriving Repr, DecidableEq

/-- Zeroed metrics, as in `__init__` (with `started_at` text). -/
def initMetrics (ts : String) : Metrics :=
  { events_received := 0, events_forwarded := 0, heartbeats_sent := 0,
    errors := 0, started_at := ts }

/-- Fresh relay state with the source's environment-variable defaults. -/
def initState (iid sid ts : String) : RelayState :=
  { instance_id := iid, session_id := sid,
    roles := ["observer", "relay"],
    event_channels := ["task.*", "hook.*", "system.*", "instance.*"],
    heartbeat_interval := 15,
    running := false, registered := false,
    request_counter := 0,
    pubsub := false, redis_client := false,
    subscribed_channels := [],
    metrics := initMetrics ts }

/-- `make_jsonrpc_request` (source lines 143-195).  The network outcome is the
input `resp`: `.error ()` for a transport/HTTP/parse failure, `.ok fields`
for a decoded JSON-object response body.  Any failure path increments
`errors` and raises (here: returns `.error ()`); a response carrying an
`error` member is raised too; otherwise `response.get('result', {})` is
returned.  The correlation counter is bumped on every call. -/
def make_jsonrpc_request (st : RelayState) (resp : Except Unit (List (String × JVal))) :
    Except Unit JVal × RelayState :=
  let st := { st with request_counter := st.request_counter + 1 }
  match resp with
  | .error _ =>
    (.error (), { st with metrics := { st.metrics with errors := st.metrics.errors + 1 } })
  | .ok fields =>
    if (getField fields "error").isSome then
      (.error (), { st with metrics := { st.metrics with errors := st.metrics.errors + 1 } })
    else
      (.ok ((getField fields "result").getD (.jobj [])), st)

/-- The `relay_ready` notification forwarded on successful registration
(source lines 214-219). -/
def readyEvent (st : RelayState) : JVal :=
  .jobj [("type", .jstr "relay_ready"),
         ("instance_id", .jstr st.instance_id),
         ("roles", .jarr (st.roles.map JVal.jstr)),
         ("subscribed_channels", .jarr (st.event_channels.map JVal.jstr))]

/-- `register` (source lines 197-228): call `system.register`; on a truthy
`registered` result set the flag, forward the `relay_ready` event and return
True; otherwise (or on exception, caught in the method) return False. -/
def register (st : RelayState) (ts : String) (resp : Except Unit (List (String × JVal))) :
    Bool × RelayState × Option OutLine :=
  match make_jsonrpc_request st resp with
  | (.error _, st1) => (false, st1, none)
  | (.ok result, st1) =>
    if jTruthy (jGet result "registered") then
      let st2 := { st1 with registered := true }
      match forward_event st2.instance_id (some "system.relay_ready") ts (readyEvent st2)
          st2.metrics with
      | .error _ => (false, st2, none)   -- exception caught by the method's handler
      | .ok (line, m2) => (true, { st2 with metrics := m2 }, line)
    else (false, st1, none)

/-- The `relay_stopping` notification forwarded by `unregister`
(source lines 239-243). -/
def stoppingEvent (st : RelayState) : JVal :=
  .jobj [("type", .jstr "relay_stopping"),
         ("instance_id", .jstr st.instance_id),
         ("reason", .jstr "shutdown")]

/-- `unregister` (source lines 230-255): no-op when not registered; otherwise
forward `relay_stopping`, call `system.unregister`, and clear `registered`
on success.  Every exception is caught and logged, never re-raised. -/
def unregister (st : RelayState) (ts : String)
    (resp : Except Unit (List (String × JVal))) : RelayState × Option OutLine :=
  if st.registered = false then (st, none)
  else
    match forward_event st.instance_id (some "system.relay_stopping") ts (stoppingEvent st)
        st.metrics with
    | .error _ => (st, none)   -- caught by the handler at the end of the method
    | .ok (line, m1) =>
      match make_jsonrpc_request { st with metrics := m1 } resp with
      | (.ok _, st2) => ({ st2 with registered := false }, line)
      | (.error _, st2) => (st2, line)

/-- State local to `heartbeat_loop` (source lines 257-299): the relay object
plus the loop's `consecutive_failures` counter; `sleeps` records the
durations passed to `asyncio.sleep`, in order. -/
structure HBState where
  relay : RelayState
  consecutive_failures : Nat
  sleeps : List Nat
deriving Repr, DecidableEq

/-- Result of one heartbeat-loop iteration: the new loop state, the line
forwarded by a re-registration (if any), and `regAttempt`: `none` when no
re-registration was attempted, `some ok` when one was attempted with
outcome `ok`. -/
structure HBResult where
  st : HBState
  line : Option OutLine
  regAttempt : Option Bool

/-- One iteration of `heartbeat_loop` (source lines 262-299).  `hbResp` is the
network outcome of the `system.heartbeat` call, `regResp` that of the
`system.register` call should a re-registration be attempted.  A failing
call increments `consecutive_failures` (and, inside `make_jsonrpc_request`,
`errors`); at 3 consecutive failures the loop clears `registered`, sleeps 5
seconds and re-registers, resetting the counter only on success.  Every
iteration ends by sleeping the heartbeat interval. -/
def heartbeat_iter (ts : String) (s : HBState)
    (hbResp regResp : Except Unit (List (String × JVal))) : HBResult :=
  match make_jsonrpc_request s.relay hbResp with
  | (.ok result, r1) =>
    let r1 := { r1 with metrics :=
      { r1.metrics with heartbeats_sent := r1.metrics.heartbeats_sent + 1 } }
    if jTruthy (jGet result "alive") = false then
      let r2 := { r1 with registered := false }
      let (ok, r3, line) := register r2 ts regResp
      ⟨⟨r3, 0, s.sleeps ++ [r3.heartbeat_interval]⟩, line, some ok⟩
    else
      ⟨⟨r1, 0, s.sleeps ++ [r1.heartbeat_interval]⟩, none, none⟩
  | (.error _, r1) =>
    let cf := s.consecutive_failures + 1
    if 3 ≤ cf then
      let r2 := { r1 with registered := false }
      let sleeps1 := s.sleeps ++ [5]
      let (ok, r3, line) := register r2 ts regResp
      let cf2 := if ok then 0 else cf
      ⟨⟨r3, cf2, sleeps1 ++ [r3.heartbeat_interval]⟩, line, some ok⟩
    else
      ⟨⟨r1, cf, s.sleeps ++ [r1.heartbeat_interval]⟩, none, none⟩

/-- Add an element to the Python set `self.subscribed_channels`. -/
def setAdd (xs : List String) (x : String) : List String :=
  if x ∈ xs then xs else xs ++ [x]

/-- `setup_redis_subscription` (source lines 301-347): connect, create the
pub/sub object and subscribe every configured pattern, adding each to
`subscribed_channels` (`psubscribe` for wildcard patterns and `subscribe`
for exact names mutate the set identically).  `connectOk` is the network
outcome of the connect/ping/subscribe sequence as a whole: on failure the
exception is caught and `False` is returned with the state unchanged. -/
def setup_redis_subscription (st : RelayState) (connectOk : Bool) : Bool × RelayState :=
  if connectOk then
    (true,
     { st with
       pubsub := true
       redis_client := true
       subscribed_channels := st.event_channels.foldl setAdd st.subscribed_channels })
  else
    (false, st)

/-- The broken-connection cleanup in `event_subscription_loop`
(source lines 405-418): close and drop both connection objects, swallowing
close errors.  Note `subscribed_channels` is not touched. -/
def cleanupConnections (st : RelayState) : RelayState :=
  { st with pubsub := false, redis_client := false }

/-- One message delivered by `pubsub.listen()`.  `data` is a JSON value; the
transport delivers strings for `message`/`pmessage` entries. -/
structure RMessage where
  mtype : String
  pattern : Option String
  channel : Option String
  data : JVal

/-- Python `message.get('channel') or message.get('pattern')` (an empty or
missing channel falls back to the pattern). -/
def pyOrStr (a b : Option String) : Option String :=
  match a with
  | some s => if s == "" then b else some s
  | none => b

/-- Handling of one listened message (source lines 374-396): count and
forward `message`/`pmessage` entries, decoding string data as JSON via
`loads` and falling back to `{'raw': data_str}` when decoding fails;
control messages are consumed silently.  Returns the metrics, the emitted
line, and whether `forward_event` raised. -/
def handle_message (loads : String → Option JVal) (iid ts : String) (msg : RMessage)
    (m : Metrics) : Metrics × Option OutLine × Bool :=
  if msg.mtype == "message" || msg.mtype == "pmessage" then
    let m1 := { m with events_received := m.events_received + 1 }
    let event_data : JVal :=
      match msg.data with
      | .jstr s =>
        match loads s with
        | some v => v
        | none => .jobj [("raw", .jstr s)]
      | d => d
    match forward_event iid (pyOrStr msg.channel msg.pattern) ts event_data m1 with
    | .error _ => (m1, none, true)
    | .ok (line, m2) => (m2, line, false)
  else
    (m, none, false)

/-- Process the messages yielded by one `listen` session in order, stopping
at the first message whose handling raises (the exception then reaches the
loop's handler). -/
def processMessages (loads : String → Option JVal) (iid ts : String) :
    List RMessage → Metrics → List OutLine → Metrics × List OutLine × Bool
  | [], m, acc => (m, acc, false)
  | msg :: rest, m, acc =>
    match handle_message loads iid ts msg m with
    | (m1, line, true) => (m1, acc ++ line.toList, true)
    | (m1, line, false) => processMessages loads iid ts rest m1 (acc ++ line.toList)

/-- The externally-determined course of one iteration of
`event_subscription_loop`: either the Redis setup fails, or a listen session
runs, delivering `msgs` and then either ending with a transport error
(`err = true`, with `reg` the network outcome of the subsequent re-register
call) or being left by the cooperative stop flag. -/
inductive SubOutcome where
  | setupFail : SubOutcome
  | session : List RMessage → Bool → Except Unit (List (String × JVal)) → SubOutcome

/-- State local to `event_subscription_loop` (source lines 349-431): the
relay object, the current `reconnect_delay`, the recorded sleep durations,
and the lines printed to stdout so far. -/
structure SubState where
  relay : RelayState
  delay : Nat
  sleeps : List Nat
  out : List OutLine

/-- The body run once a connection is live (source lines 364-431): reset
`reconnect_delay` to 1, iterate the messages; on an error (transport error
or an exception escaping `forward_event`) increment `errors`, clean up the
connections, sleep the current delay, double it (capped at 30), clear
`registered` and attempt a re-registration. -/
def subSession (loads : String → Option JVal) (ts : String) (s : SubState)
    (msgs : List RMessage) (err : Bool) (reg : Except Unit (List (String × JVal))) :
    SubState :=
  let s := { s with delay := 1 }
  match processMessages loads s.relay.instance_id ts msgs s.relay.metrics [] with
  | (m, lines, raised) =>
    let s := { s with relay := { s.relay with metrics := m }, out := s.out ++ lines }
    if err || raised then
      let r1 := cleanupConnections { s.relay with metrics :=
        { s.relay.metrics with errors := s.relay.metrics.errors + 1 } }
      let s :=
        { s with
          relay := r1
          sleeps := s.sleeps ++ [s.delay]
          delay := min (s.delay * 2) 30 }
      let r2 := { s.relay with registered := false }
      let (_ok, r3, line) := register r2 ts reg
      { s with relay := r3, out := s.out ++ line.toList }
    else s

/-- One iteration of the `while self.running` body of
`event_subscription_loop`.  Without a live pub/sub object the setup runs
first: on failure sleep the reconnect delay and double it (capped at 30);
on success proceed into the listen session. -/
def subIter (loads : String → Option JVal) (ts : String) (s : SubState)
    (o : SubOutcome) : SubState :=
  if s.relay.pubsub then
    match o with
    | .setupFail => s   -- unreachable: setup only runs when no connection exists
    | .session msgs err reg => subSession loads ts s msgs err reg
  else
    match o with
    | .setupFail =>
      let (_ok, r) := setup_redis_subscription s.relay false
      { s with relay := r, sleeps := s.sleeps ++ [s.delay], delay := min (s.delay * 2) 30 }
    | .session msgs err reg =>
      let (_ok, r) := setup_redis_subscription s.relay true
      subSession loads ts { s with relay := r } msgs err reg

/-- Run the subscription loop over a sequence of iteration outcomes. -/
def subRun (loads : String → Option JVal) (ts : String) (s : SubState)
    (os : List SubOutcome) : SubState :=
  os.foldl (subIter loads ts) s

/-- Fault injection for `shutdown`: whether `pubsub.unsubscribe()`,
`pubsub.close()` and `redis_client.close()` raise. -/
structure ShutdownFaults where
  unsubFails : Bool
  pubsubCloseFails : Bool
  redisCloseFails : Bool
deriving Repr, DecidableEq

/-- Outcome of running `shutdown`: whether an exception escaped the method,
how many times `unregister` was invoked, the final state and the line
forwarded by `unregister`. -/
structure ShutdownResult where
  raised : Bool
  unregisterCalls : Nat
  state : RelayState
  line : Option OutLine

/-- `shutdown` (source lines 433-450): clear `running`, close the pub/sub and
Redis connections, call `unregister`, log final metrics.  The close calls
are not guarded by any `try`, so a failure there propagates out of the
method and the later steps never run. -/
def shutdown (st : RelayState) (ts : String) (f : ShutdownFaults)
    (unregResp : Except Unit (List (String × JVal))) : ShutdownResult :=
  let st := { st with running := false }
  if st.pubsub && (f.unsubFails || f.pubsubCloseFails) then
    ⟨true, 0, st, none⟩
  else if st.redis_client && f.redisCloseFails then
    ⟨true, 0, st, none⟩
  else
    let (st1, line) := unregister st ts unregResp
    ⟨false, 1, st1, line⟩

/-- The startup sequence of `run` (source lines 452-475): set
`running = True`, then register; on failure return at once (the concurrent
loops are never created, the process exits).  Returns the state, whether
the loops were started, the value of the `running` flag at the moment the
register call was made, and the line forwarded by registration. -/
def run_startup (st : RelayState) (ts : String)
    (resp : Except Unit (List (String × JVal))) :
    RelayState × Bool × Bool × Option OutLine :=
  let st1 := { st with running := true }
  let (ok, st2, line) := register st1 ts resp
  (st2, ok, st1.running, line)

/-- Does the event data carry an object-valued `payload` member?  Only such
events can ever be dropped by the filters in `forward_event`. -/
def hasObjPayload (d : JVal) : Bool :=
  match d with
  | .jobj fields =>
    match getField fields "payload" with
    | some (.jobj _) => true
    | _ => false
  | _ => false

/-! ## Helper lemmas -/

/-- The `relay_ready` notification carries no `payload` member, so the
self-origin filter never drops (or chokes on) it. -/
theorem forward_event_ready (iid : String) (ch : Option String) (ts : String)
    (st : RelayState) (m : Metrics) :
    forward_event iid ch ts (readyEvent st) m =
      .ok (some ⟨ts, readyEvent st⟩,
           { m with events_forwarded := m.events_forwarded + 1 }) := rfl

/-- The `relay_stopping` notification likewise always survives the filter. -/
theorem forward_event_stopping (iid : String) (ch : Option String) (ts : String)
    (st : RelayState) (m : Metrics) :
    forward_event iid ch ts (stoppingEvent st) m =
      .ok (some ⟨ts, stoppingEvent st⟩,
           { m with events_forwarded := m.events_forwarded + 1 }) := rfl

/-- The raw-string fallback object `{'raw': s}` always survives the filter. -/
theorem forward_event_raw (iid : String) (ch : Option String) (ts s : String)
    (m : Metrics) :
    forward_event iid ch ts (.jobj [("raw", .jstr s)]) m =
      .ok (some ⟨ts, .jobj [("raw", .jstr s)]⟩,
           { m with events_forwarded := m.events_forwarded + 1 }) := rfl

/-! ## Claim theorems -/

/-- C4: an event whose object payload carries `instanceId` equal to the
relay's own instance id is dropped by `forward_event`: nothing is emitted
and no metric (neither `events_forwarded` nor `errors`) changes. -/
theorem c4_self_origin_drop (iid : String) (ch : Option String) (ts : String)
    (fields pf : List (String × JVal)) (m : Metrics)
    (hp : getField fields "payload" = some (.jobj pf))
    (hi : getField pf "instanceId" = some (.jstr iid)) :
    forward_event iid ch ts (.jobj fields) m = .ok (none, m) := by
  have hs : shouldFilter iid (.jobj fields) = .ok true := by
    simp [shouldFilter, hp, hi, pyEqSome]
  unfold forward_event
  rw [hs]

/-- Witness for C4 at a concrete self-originated event. -/
theorem c4_self_origin_drop_witness :
    forward_event "claude-relay-1" (some "task.created") "T0"
        (.jobj [("type", .jstr "task.create"),
                ("payload", .jobj [("instanceId", .jstr "claude-relay-1")])])
        (initMetrics "t") = .ok (none, initMetrics "t") :=
  c4_self_origin_drop "claude-relay-1" (some "task.created") "T0" _ _ _ rfl rfl

/-- C10: an event without an object-valued `payload` member (for example the
raw-string fallback `{'raw': ...}`) is never filtered: `forward_event`
always emits exactly one line carrying the event data and increments
`events_forwarded`. -/
theorem c10_unfiltered_without_payload (iid : String) (ch : Option String)
    (ts : String) (d : JVal) (m : Metrics) (h : hasObjPayload d = false) :
    forward_event iid ch ts d m =
      .ok (some ⟨ts, d⟩, { m with events_forwarded := m.events_forwarded + 1 }) := by
  have hs : shouldFilter iid d = .ok false := by
    cases d with
    | jobj fields =>
      simp only [hasObjPayload] at h
      cases hp : getField fields "payload" with
      | none =>
        have hm : strContains "" "claude_event_relay.py" = false := by decide
        simp only [shouldFilter, hp]
        simp [getField, pyEqSome, pyInJ, hm]
      | some v =>
        rw [hp] at h
        cases v <;> simp_all [shouldFilter, hp]
    | jnull => rfl
    | jbool b => rfl
    | jnum n => rfl
    | jstr s => rfl
    | jarr xs => rfl
  unfold forward_event
  rw [hs]

/-- Witness for C10 at the concrete raw-string fallback event. -/
theorem c10_unfiltered_without_payload_witness :
    forward_event "claude-relay-1" (some "task.created") "T0"
        (.jobj [("raw", .jstr "not json")]) (initMetrics "t") =
      .ok (some ⟨"T0", .jobj [("raw", .jstr "not json")]⟩,
           { initMetrics "t" with events_forwarded := 1 }) :=
  c10_unfiltered_without_payload "claude-relay-1" (some "task.created") "T0" _ _ rfl

/-- C1 (counterexample): on the spec's own end-to-end input — channel
`task.created`, decoded payload `{"id": "t1"}` — `forward_event` emits the
line `{'timestamp': ..., 'data': {"id": "t1"}}`: the `data` member is the
received event data itself, not an object `{channel, payload}` wrapping the
channel the envelope was received on. -/
theorem c1_counterexample :
    forward_event "claude-relay-1" (some "task.created") "T0"
        (.jobj [("id", .jstr "t1")]) (initMetrics "t") =
      .ok (some ⟨"T0", .jobj [("id", .jstr "t1")]⟩,
           { initMetrics "t" with events_forwarded := 1 }) ∧
    (JVal.jobj [("id", .jstr "t1")] ≠
      .jobj [("channel", .jstr "task.created"),
             ("payload", .jobj [("id", .jstr "t1")])]) := by
  refine ⟨rfl, ?_⟩
  simp

/-- C1 (amended): for every event that survives filtering, `forward_event`
writes exactly one output line `{timestamp, data}` whose `data` member is
the received event data unchanged, and increments `events_forwarded` by
one; the channel is not embedded in the output envelope. -/
theorem c1_forward_one_line (iid : String) (ch : Option String) (ts : String)
    (d : JVal) (m : Metrics) (h : shouldFilter iid d = .ok false) :
    forward_event iid ch ts d m =
      .ok (some ⟨ts, d⟩, { m with events_forwarded := m.events_forwarded + 1 }) := by
  unfold forward_event
  rw [h]

/-- Witness for the amended C1 at the spec's end-to-end input. -/
theorem c1_forward_one_line_witness :
    shouldFilter "claude-relay-1" (.jobj [("id", .jstr "t1")]) = .ok false ∧
    forward_event "claude-relay-1" (some "task.created") "T0"
        (.jobj [("id", .jstr "t1")]) (initMetrics "t") =
      .ok (some ⟨"T0", .jobj [("id", .jstr "t1")]⟩,
           { initMetrics "t" with events_forwarded := 1 }) :=
  ⟨rfl, c1_forward_one_line "claude-relay-1" (some "task.created") "T0" _ _ rfl⟩

/-- C8: for a delivered transport message of type `message` or `pmessage`
carrying a data string, the handler decodes the string with `loads` and
forwards the decoded value when decoding succeeds; when decoding fails the
message is not dropped: it is forwarded as `{'raw': <original string>}`,
one line is emitted and `events_forwarded` is incremented (the raw fallback
is never filtered).  `events_received` is counted either way. -/
theorem c8_decode_or_raw (loads : String → Option JVal) (iid ts : String)
    (mt : String) (pat ch : Option String) (s : String) (m : Metrics)
    (hmt : mt = "message" ∨ mt = "pmessage") :
    handle_message loads iid ts ⟨mt, pat, ch, .jstr s⟩ m =
      match loads s with
      | some v =>
        (match forward_event iid (pyOrStr ch pat) ts v
            { m with events_received := m.events_received + 1 } with
         | .ok (line, m2) => (m2, line, false)
         | .error _ => ({ m with events_received := m.events_received + 1 }, none, true))
      | none =>
        ({ m with events_received := m.events_received + 1,
                  events_forwarded := m.events_forwarded + 1 },
         some ⟨ts, .jobj [("raw", .jstr s)]⟩, false) := by
  have hb : (mt == "message" || mt == "pmessage") = true := by
    rcases hmt with h | h <;> simp [h]
  unfold handle_message
  simp only [hb]
  cases hl : loads s with
  | some v =>
    simp only []
    cases hfe : forward_event iid (pyOrStr ch pat) ts v
        { m with events_received := m.events_received + 1 } with
    | error e => simp
    | ok p => cases p with | mk line m2 => simp
  | none => simp [forward_event_raw]

/-- Witness for C8: a `pmessage` whose data string fails to decode is
forwarded as the raw fallback. -/
theorem c8_decode_or_raw_witness :
    handle_message (fun _ => none) "claude-relay-1" "T0"
        ⟨"pmessage", some "task.*", some "task.created", .jstr "not json"⟩
        (initMetrics "t") =
      ({ initMetrics "t" with events_received := 1, events_forwarded := 1 },
       some ⟨"T0", .jobj [("raw", .jstr "not json")]⟩, false) := by
  rw [c8_decode_or_raw (fun _ => none) "claude-relay-1" "T0" "pmessage"
    (some "task.*") (some "task.created") "not json" (initMetrics "t") (Or.inr rfl)]
  rfl

/-- `register` on a transport-level failure: the call raises inside
`make_jsonrpc_request` (counting an error), the method returns False. -/
theorem register_error_eq (st : RelayState) (ts : String) (e : Unit) :
    register st ts (.error e) =
      (false,
       { st with request_counter := st.request_counter + 1,
                 metrics := { st.metrics with errors := st.metrics.errors + 1 } },
       none) := rfl

/-- Full characterization of `register` on a decoded response object. -/
theorem register_ok_eq (st : RelayState) (ts : String) (fields : List (String × JVal)) :
    register st ts (.ok fields) =
      if (getField fields "error").isSome then
        (false,
         { st with request_counter := st.request_counter + 1,
                   metrics := { st.metrics with errors := st.metrics.errors + 1 } },
         none)
      else if jTruthy (jGet ((getField fields "result").getD (.jobj [])) "registered") then
        (true,
         { st with request_counter := st.request_counter + 1, registered := true,
                   metrics :=
                     { st.metrics with
                       events_forwarded := st.metrics.events_forwarded + 1 } },
         some ⟨ts, readyEvent st⟩)
      else
        (false, { st with request_counter := st.request_counter + 1 }, none) := by
  by_cases he : (getField fields "error").isSome
  · simp [register, make_jsonrpc_request, he]
  · by_cases ht : jTruthy (jGet ((getField fields "result").getD (.jobj [])) "registered")
    · simp only [register, make_jsonrpc_request, he, ht]
      simp [forward_event_ready]
      simp [readyEvent]
      exact ht
    · simp [register, make_jsonrpc_request, he, ht]

/-- `register` never changes the fields it does not own: configuration,
connections, subscriptions and the running flag are untouched. -/
theorem register_preserves (st : RelayState) (ts : String)
    (resp : Except Unit (List (String × JVal))) :
    (register st ts resp).2.1.running = st.running ∧
    (register st ts resp).2.1.heartbeat_interval = st.heartbeat_interval ∧
    (register st ts resp).2.1.subscribed_channels = st.subscribed_channels ∧
    (register st ts resp).2.1.pubsub = st.pubsub ∧
    (register st ts resp).2.1.redis_client = st.redis_client ∧
    (register st ts resp).2.1.instance_id = st.instance_id ∧
    (register st ts resp).2.1.event_channels = st.event_channels := by
  cases resp with
  | error e => rw [register_error_eq]; simp
  | ok fields => rw [register_ok_eq]; split_ifs <;> simp

/-- Starting from an unregistered state, `register` leaves the `registered`
flag equal to its own return value. -/
theorem register_registered_eq (st : RelayState) (ts : String)
    (resp : Except Unit (List (String × JVal))) (h : st.registered = false) :
    (register st ts resp).2.1.registered = (register st ts resp).1 := by
  cases resp with
  | error e => rw [register_error_eq]; simp [h]
  | ok fields => rw [register_ok_eq]; split_ifs <;> simp [h]

/-- C9: a successful `register` call itself forwards one `relay_ready` line
through `forward_event` and increments `events_forwarded`, so after a
successful startup registration `events_forwarded` is already 1 before any
transport event arrives. -/
theorem c9_register_forwards_ready (st : RelayState) (ts : String)
    (resp : Except Unit (List (String × JVal)))
    (h : (register st ts resp).1 = true) :
    (register st ts resp).2.2 = some ⟨ts, readyEvent st⟩ ∧
    (register st ts resp).2.1.metrics.events_forwarded =
      st.metrics.events_forwarded + 1 := by
  cases resp with
  | error e => rw [register_error_eq] at h; simp at h
  | ok fields =>
    rw [register_ok_eq] at h ⊢
    split_ifs at h ⊢ with he ht
    · exact ⟨rfl, rfl⟩

/-- Witness for C9: registering a fresh relay against a response
`{result: {registered: true}}` leaves `events_forwarded = 1`. -/
theorem c9_register_forwards_ready_witness :
    (register (initState "claude-relay-1" "session-1" "t") "T0"
        (.ok [("result", .jobj [("registered", .jbool true)])])).2.2 =
      some ⟨"T0", readyEvent (initState "claude-relay-1" "session-1" "t")⟩ ∧
    (register (initState "claude-relay-1" "session-1" "t") "T0"
        (.ok [("result", .jobj [("registered", .jbool true)])])).2.1.metrics.events_forwarded
      = 1 :=
  c9_register_forwards_ready (initState "claude-relay-1" "session-1" "t") "T0"
    (.ok [("result", .jobj [("registered", .jbool true)])]) rfl

/-- C3 (counterexample): starting a fresh relay against a failing
registration call, `run` has already set the running flag to true at the
moment the register call is made — the flag is true even though no
successful registration ever happened (and the loops are not started). -/
theorem c3_counterexample :
    (run_startup (initState "claude-relay-1" "session-1" "t") "T0" (.error ())).2.2.1
      = true ∧
    (run_startup (initState "claude-relay-1" "session-1" "t") "T0" (.error ())).2.1
      = false ∧
    (run_startup (initState "claude-relay-1" "session-1" "t") "T0" (.error ())).1.running
      = true ∧
    (run_startup (initState "claude-relay-1" "session-1" "t") "T0" (.error ())).1.registered
      = false :=
  ⟨rfl, rfl, rfl, rfl⟩

/-- C3 (amended): `run` sets `running = True` before attempting the initial
registration; the concurrent loops are started exactly when that
registration succeeds (equivalently, exactly when the state ends up
registered), and on failure `run` returns — but the running flag was
already true at the register call. -/
theorem c3_loops_only_after_registration (st : RelayState) (ts : String)
    (resp : Except Unit (List (String × JVal))) (h : st.registered = false) :
    (run_startup st ts resp).2.2.1 = true ∧
    (run_startup st ts resp).1.running = true ∧
    (run_startup st ts resp).2.1 = (run_startup st ts resp).1.registered := by
  unfold run_startup
  refine ⟨rfl, ?_, ?_⟩
  · have hp := register_preserves { st with running := true } ts resp
    simpa using hp.1
  · have hr := register_registered_eq { st with running := true } ts resp (by simpa using h)
    simpa using hr.symm

/-- Witness for the amended C3 at a concrete failing registration. -/
theorem c3_loops_only_after_registration_witness :
    (run_startup (initState "claude-relay-1" "session-1" "t") "T0" (.error ())).2.2.1
      = true ∧
    (run_startup (initState "claude-relay-1" "session-1" "t") "T0" (.error ())).1.running
      = true ∧
    (run_startup (initState "claude-relay-1" "session-1" "t") "T0" (.error ())).2.1 =
      (run_startup (initState "claude-relay-1" "session-1" "t") "T0" (.error ())).1.registered :=
  c3_loops_only_after_registration (initState "claude-relay-1" "session-1" "t") "T0"
    (.error ()) rfl

/-- C2 (counterexample): with a live pub/sub connection whose `close` raises,
`shutdown` propagates the exception and `unregister` is never called —
refuting "unregister is called exactly once and shutdown never raises even
when the event-transport close fails". -/
theorem c2_counterexample :
    (shutdown { initState "claude-relay-1" "session-1" "t" with
                  pubsub := true, registered := true }
        "T0" ⟨false, true, false⟩ (.ok [])).raised = true ∧
    (shutdown { initState "claude-relay-1" "session-1" "t" with
                  pubsub := true, registered := true }
        "T0" ⟨false, true, false⟩ (.ok [])).unregisterCalls = 0 :=
  ⟨rfl, rfl⟩

/-- C2 (amended): provided the transport close steps themselves do not raise
(or no connection objects exist), `shutdown` calls `unregister` exactly
once and does not raise — even when the unregister RPC fails, since
`unregister` catches every exception internally.  A failure of
`pubsub.unsubscribe`/`pubsub.close`/`redis_client.close`, however,
propagates out of `shutdown` and skips `unregister`. -/
theorem c2_shutdown_unregisters_once (st : RelayState) (ts : String)
    (f : ShutdownFaults) (resp : Except Unit (List (String × JVal)))
    (hp : st.pubsub = true → f.unsubFails = false ∧ f.pubsubCloseFails = false)
    (hr : st.redis_client = true → f.redisCloseFails = false) :
    (shutdown st ts f resp).raised = false ∧
    (shutdown st ts f resp).unregisterCalls = 1 := by
  simp only [shutdown]
  have h1 : (({ st with running := false } : RelayState).pubsub
      && (f.unsubFails || f.pubsubCloseFails)) = false := by
    cases hps : st.pubsub with
    | false => simp
    | true => rcases hp hps with ⟨h2, h3⟩; simp [h2, h3]
  have h4 : (({ st with running := false } : RelayState).redis_client
      && f.redisCloseFails) = false := by
    cases hrc : st.redis_client with
    | false => simp
    | true => simp [hr hrc]
  rw [h1, h4]
  simp only [Bool.false_eq_true, if_false]
  cases hu : unregister { st with running := false } ts resp with
  | mk st1 line => constructor <;> trivial

/-- Witness for the amended C2: a live connection, no close faults, and a
failing unregister RPC still yield exactly one unregister call and no
exception. -/
theorem c2_shutdown_unregisters_once_witness :
    (shutdown { initState "claude-relay-1" "session-1" "t" with
                  pubsub := true, redis_client := true, registered := true }
        "T0" ⟨false, false, false⟩ (.error ())).raised = false ∧
    (shutdown { initState "claude-relay-1" "session-1" "t" with
                  pubsub := true, redis_client := true, registered := true }
        "T0" ⟨false, false, false⟩ (.error ())).unregisterCalls = 1 :=
  c2_shutdown_unregisters_once _ "T0" ⟨false, false, false⟩ (.error ())
    (fun _ => ⟨rfl, rfl⟩) (fun _ => rfl)

/-- Membership after a set insertion. -/
theorem mem_setAdd (y x : String) (xs : List String) :
    y ∈ setAdd xs x ↔ y ∈ xs ∨ y = x := by
  unfold setAdd
  split
  · rename_i h
    constructor
    · exact Or.inl
    · rintro (hy | rfl)
      · exact hy
      · exact h
  · simp [List.mem_append]

/-- Membership in a fold of set insertions. -/
theorem mem_foldl_setAdd (cs : List String) (s : List String) (c : String) :
    c ∈ cs.foldl setAdd s ↔ c ∈ s ∨ c ∈ cs := by
  induction cs generalizing s with
  | nil => simp
  | cons a t ih =>
    simp only [List.foldl_cons, ih, mem_setAdd, List.mem_cons]
    tauto

/-- Inserting only elements already present leaves the set unchanged. -/
theorem foldl_setAdd_of_subset (cs s : List String) (h : ∀ c ∈ cs, c ∈ s) :
    cs.foldl setAdd s = s := by
  induction cs with
  | nil => rfl
  | cons a t ih =>
    have ha2 : setAdd s a = s := by
      unfold setAdd
      rw [if_pos (h a (List.mem_cons_self a t))]
    simp only [List.foldl_cons, ha2]
    exact ih (fun c hc => h c (List.mem_cons_of_mem a hc))

/-- C7 (counterexample): after a successful subscription the broken-connection
cleanup drops the pub/sub object but does not clear `subscribed_channels`:
the set still holds all four default patterns, refuting "cleared on
disconnect". -/
theorem c7_counterexample :
    (cleanupConnections
        (setup_redis_subscription (initState "claude-relay-1" "session-1" "t") true).2).pubsub
      = false ∧
    (cleanupConnections
        (setup_redis_subscription (initState "claude-relay-1" "session-1" "t") true).2).subscribed_channels
      = ["task.*", "hook.*", "system.*", "instance.*"] ∧
    (["task.*", "hook.*", "system.*", "instance.*"] : List String) ≠ [] :=
  ⟨rfl, rfl, by simp⟩

/-- C7 (amended): the subscription set is populated at subscribe time; it is
NOT cleared when the connection is torn down (it persists unchanged across
the disconnect cleanup); and resubscribing on reconnect re-adds the same
patterns, leaving the set identical to what it was after the first
subscribe (idempotent resubscription). -/
theorem c7_subscription_set (st : RelayState) :
    (∀ c ∈ st.event_channels,
      c ∈ (setup_redis_subscription st true).2.subscribed_channels) ∧
    (cleanupConnections
        (setup_redis_subscription st true).2).subscribed_channels
      = (setup_redis_subscription st true).2.subscribed_channels ∧
    (setup_redis_subscription
        (cleanupConnections (setup_redis_subscription st true).2) true).2.subscribed_channels
      = (setup_redis_subscription st true).2.subscribed_channels := by
  refine ⟨?_, rfl, ?_⟩
  · intro c hc
    simp only [setup_redis_subscription, if_pos]
    exact (mem_foldl_setAdd _ _ _).mpr (Or.inr hc)
  · simp only [setup_redis_subscription, if_pos, cleanupConnections]
    apply foldl_setAdd_of_subset
    intro c hc
    exact (mem_foldl_setAdd _ _ _).mpr (Or.inr hc)

/-- Witness for the amended C7 on the default configuration. -/
theorem c7_subscription_set_witness :
    "task.*" ∈ (setup_redis_subscription
        (initState "claude-relay-1" "session-1" "t") true).2.subscribed_channels ∧
    (setup_redis_subscription
        (cleanupConnections
          (setup_redis_subscription (initState "claude-relay-1" "session-1" "t") true).2)
        true).2.subscribed_channels
      = (setup_redis_subscription
          (initState "claude-relay-1" "session-1" "t") true).2.subscribed_channels :=
  ⟨(c7_subscription_set (initState "claude-relay-1" "session-1" "t")).1 "task.*"
      (by simp [initState]),
   (c7_subscription_set (initState "claude-relay-1" "session-1" "t")).2.2⟩

/-- `register` never decreases the error counter. -/
theorem register_errors_mono (st : RelayState) (ts : String)
    (resp : Except Unit (List (String × JVal))) :
    st.metrics.errors ≤ (register st ts resp).2.1.metrics.errors := by
  cases resp with
  | error e => rw [register_error_eq]; simp
  | ok fields => rw [register_ok_eq]; split_ifs <;> simp

/-- C6: in the heartbeat loop, a failing `system.heartbeat` call increments
the consecutive-failure counter and `errors`; when the counter reaches the
threshold of 3, `registered` is set to false, a fixed 5-second delay is
slept and a re-registration is attempted before the interval sleep that
precedes the next heartbeat; on re-registration success the counter resets
to 0 (and the state is registered again), on failure the counter keeps its
value and `registered` stays false for the next iteration to retry. -/
theorem c6_heartbeat_failures (ts : String) (s : HBState)
    (regResp : Except Unit (List (String × JVal))) :
    ((s.consecutive_failures + 1 < 3 →
      (heartbeat_iter ts s (.error ()) regResp).st.consecutive_failures
          = s.consecutive_failures + 1 ∧
      (heartbeat_iter ts s (.error ()) regResp).st.relay.metrics.errors
          = s.relay.metrics.errors + 1 ∧
      (heartbeat_iter ts s (.error ()) regResp).regAttempt = none) ∧
    (3 ≤ s.consecutive_failures + 1 →
      s.relay.metrics.errors + 1
          ≤ (heartbeat_iter ts s (.error ()) regResp).st.relay.metrics.errors ∧
      (heartbeat_iter ts s (.error ()) regResp).st.sleeps
          = s.sleeps ++ [5, s.relay.heartbeat_interval] ∧
      (∃ b, (heartbeat_iter ts s (.error ()) regResp).regAttempt = some b) ∧
      ((heartbeat_iter ts s (.error ()) regResp).regAttempt = some true →
        (heartbeat_iter ts s (.error ()) regResp).st.consecutive_failures = 0 ∧
        (heartbeat_iter ts s (.error ()) regResp).st.relay.registered = true) ∧
      ((heartbeat_iter ts s (.error ()) regResp).regAttempt = some false →
        (heartbeat_iter ts s (.error ()) regResp).st.consecutive_failures
            = s.consecutive_failures + 1 ∧
        (heartbeat_iter ts s (.error ()) regResp).st.relay.registered = false))) := by
  have hmk : make_jsonrpc_request s.relay (.error ()) =
      (.error (),
       { s.relay with request_counter := s.relay.request_counter + 1,
                      metrics :=
                        { s.relay.metrics with
                          errors := s.relay.metrics.errors + 1 } }) := rfl
  constructor
  · intro hlt
    simp only [heartbeat_iter, hmk]
    rw [if_neg (by omega)]
    exact ⟨rfl, rfl, rfl⟩
  · intro hge
    simp only [heartbeat_iter, hmk]
    rw [if_pos (by omega)]
    set r2 : RelayState :=
      { s.relay with request_counter := s.relay.request_counter + 1,
                     registered := false,
                     metrics :=
                       { s.relay.metrics with
                         errors := s.relay.metrics.errors + 1 } } with hr2
    have hr2reg : r2.registered = false := rfl
    have hpres := register_preserves r2 ts regResp
    have herr := register_errors_mono r2 ts regResp
    have hregeq := register_registered_eq r2 ts regResp hr2reg
    rcases hreg : register r2 ts regResp with ⟨ok, r3, line⟩
    rw [hreg] at hpres herr hregeq
    simp only at hpres herr hregeq
    refine ⟨?_, ?_, ⟨ok, ?_⟩, ?_, ?_⟩
    · simpa using herr
    · simp [hpres.2.1, List.append_assoc]
    · rfl
    · intro hsome
      have hok : ok = true := by simpa using hsome
      subst hok
      exact ⟨rfl, hregeq⟩
    · intro hsome
      have hok : ok = false := by simpa using hsome
      subst hok
      exact ⟨rfl, hregeq⟩

/-- Witness for C6: at 2 prior consecutive failures, a third heartbeat
failure with a failing re-registration sleeps 5 then the 15-second
interval, leaves the counter at 3 and the relay unregistered. -/
theorem c6_heartbeat_failures_witness :
    (heartbeat_iter "T0" ⟨initState "claude-relay-1" "session-1" "t", 2, []⟩
        (.error ()) (.error ())).st.sleeps = [5, 15] ∧
    (heartbeat_iter "T0" ⟨initState "claude-relay-1" "session-1" "t", 2, []⟩
        (.error ()) (.error ())).st.consecutive_failures = 3 ∧
    (heartbeat_iter "T0" ⟨initState "claude-relay-1" "session-1" "t", 2, []⟩
        (.error ()) (.error ())).st.relay.registered = false := by
  have h := (c6_heartbeat_failures "T0"
      ⟨initState "claude-relay-1" "session-1" "t", 2, []⟩ (.error ())).2 (by decide)
  rcases h with ⟨herr, hsleeps, hex, hsucc, hfail⟩
  have hf := hfail rfl
  refine ⟨?_, ?_, hf.2⟩
  · simpa [initState] using hsleeps
  · simpa using hf.1

/-- One capped doubling step applied to a capped power of two. -/
theorem capDouble (j : Nat) : min (min (2 ^ j) 30 * 2) 30 = min (2 ^ (j + 1)) 30 := by
  have h : 2 ^ (j + 1) = 2 ^ j * 2 := pow_succ 2 j
  omega

/-- A failed setup iteration of the subscription loop: sleep the current
reconnect delay, then double it (capped at 30). -/
theorem subIter_setupFail (loads : String → Option JVal) (ts : String)
    (s : SubState) (hps : s.relay.pubsub = false) :
    subIter loads ts s .setupFail =
      { s with sleeps := s.sleeps ++ [s.delay], delay := min (s.delay * 2) 30 } := by
  simp [subIter, hps, setup_redis_subscription]

/-- Sleeps recorded by `n` consecutive setup failures starting from a capped
power-of-two delay. -/
theorem subRun_setupFails (loads : String → Option JVal) (ts : String) (n : Nat) :
    ∀ (j : Nat) (s : SubState),
    s.relay.pubsub = false → s.delay = min (2 ^ j) 30 →
    (subRun loads ts s (List.replicate n .setupFail)).sleeps =
      s.sleeps ++ (List.range n).map (fun i => min (2 ^ (j + i)) 30) := by
  induction n with
  | zero =>
    intro j s hps hd
    simp [subRun]
  | succ k ih =>
    intro j s hps hd
    rw [List.replicate_succ]
    have hstep := subIter_setupFail loads ts s hps
    simp only [subRun, List.foldl_cons]
    rw [hstep]
    have hps2 : ({ s with
                   sleeps := s.sleeps ++ [s.delay]
                   delay := min (s.delay * 2) 30 } : SubState).relay.pubsub = false := hps
    have hd2 : ({ s with
                  sleeps := s.sleeps ++ [s.delay]
                  delay := min (s.delay * 2) 30 } : SubState).delay = min (2 ^ (j + 1)) 30 := by
      simp only []
      rw [hd]
      exact capDouble j
    have hih := ih (j + 1)
      { s with sleeps := s.sleeps ++ [s.delay], delay := min (s.delay * 2) 30 } hps2 hd2
    simp only [subRun] at hih
    rw [hih]
    rw [List.range_succ_eq_map, List.map_cons, List.map_map]
    simp only [List.append_assoc, List.singleton_append]
    congr 1
    congr 1
    congr 1
    funext i
    simp only [Function.comp]
    have hji : j + 1 + i = j + (i + 1) := by omega
    rw [hji]

/-- A listen session that ends in a transport error sleeps exactly 1 unit:
the reconnect delay was reset to the initial value when the connection was
established, before the error path sleeps it. -/
theorem subSession_errored_sleeps (loads : String → Option JVal) (ts : String)
    (s : SubState) (msgs : List RMessage)
    (reg : Except Unit (List (String × JVal))) :
    (subSession loads ts s msgs true reg).sleeps = s.sleeps ++ [1] := by
  simp only [subSession]
  split
  · simp
  · rename_i h
    simp at h

/-- C5: in the subscription loop, starting from the initial reconnect delay,
the sleep recorded after N prior consecutive connection/subscription
failures equals `min(1 * 2^N, 30)` (so `n` consecutive setup failures sleep
1, 2, 4, ..., capped at 30); and after a successful reconnect the delay
used for the next failure is reset to the initial 1. -/
theorem c5_backoff_and_reset (loads : String → Option JVal) (ts : String)
    (s : SubState) (msgs : List RMessage)
    (reg : Except Unit (List (String × JVal))) (n : Nat)
    (hps : s.relay.pubsub = false) :
    (s.delay = 1 →
      (subRun loads ts s (List.replicate n .setupFail)).sleeps =
        s.sleeps ++ (List.range n).map (fun i => min (2 ^ i) 30)) ∧
    (subIter loads ts s (.session msgs true reg)).sleeps = s.sleeps ++ [1] := by
  constructor
  · intro hd
    have h := subRun_setupFails loads ts n 0 s hps (by rw [hd]; norm_num)
    rw [h]
    simp [Nat.zero_add]
  · simp only [subIter, hps, Bool.false_eq_true, if_false, setup_redis_subscription,
      if_true]
    rw [subSession_errored_sleeps]

/-- Witness for C5: six consecutive setup failures sleep 1, 2, 4, 8, 16, 30;
an errored session after a successful reconnect sleeps 1. -/
theorem c5_backoff_and_reset_witness :
    (subRun (fun _ => none) "T0"
        ⟨initState "claude-relay-1" "session-1" "t", 1, [], []⟩
        (List.replicate 6 .setupFail)).sleeps = [1, 2, 4, 8, 16, 30] ∧
    (subIter (fun _ => none) "T0"
        ⟨initState "claude-relay-1" "session-1" "t", 1, [], []⟩
        (.session [] true (.error ()))).sleeps = [1] := by
  have h := c5_backoff_and_reset (fun _ => none) "T0"
      ⟨initState "claude-relay-1" "session-1" "t", 1, [], []⟩ [] (.error ()) 6 rfl
  refine ⟨?_, h.2⟩
  have h1 := h.1 rfl
  rw [h1]
  decide
